import Mathlib

/-!
Verification development for the `lock-hog` repository.

The repository provides three variants of a "lock hogging" test utility:
* `src/lock_hog/hog_lock.py` — thread-only variant (`hog_lock`);
* `src/lock_hog/parallel/hog_lock.py` — thread-or-process variant (`hog_lock`
  with a `hog_from` selector);
* `src/lock_hog/asynchronous/async_hog_lock.py` — asyncio-task variant
  (`async_hog_lock`).

Each variant spawns an execution context running a handshake wrapper
(`_hog_lock_until_instructed_to_release`) over a caller-supplied capability
(context manager), coordinates with it through a pair of one-shot events,
and on scope exit waits (bounded by a timeout) for the context to stop,
raising `HoggerStillAlive` if it does not.

The definitions below are a shallow embedding of that code: Python floats are
modelled as a rational value paired with the string Python's `f"{x}"`
formatting would produce; events are one-shot boolean flags; the generator
bodies of the `@contextlib.contextmanager` functions are modelled as explicit
entry/exit functions, with the semantics of `contextlib` spelled out in the
doc comments where it matters (in particular: a bare `yield` with no
`try/finally` means that when the caller's block raises, the exception is
thrown into the generator at the `yield` and nothing after the `yield` runs).
-/

/-- Python `float` value as the code uses it: the numeric value (modelled as a
rational; NaN/infinities are not used by this code) together with the string
Python's `f"{x}"` formatting produces for it (e.g. `0.01` prints as "0.01",
`1.0` prints as "1.0"). -/
structure PyFloat where
  val : ℚ
  repr : String
deriving DecidableEq

/-- Python `x or d` for `x : float | None`: returns `d` when `x` is falsy
(`None`, `0.0`, `-0.0`), otherwise `x`.  This is the `timeout = timeout or
DEFAULT_...` line shared by all three variants. -/
def pyFloatOr (x : Option PyFloat) (d : PyFloat) : PyFloat :=
  match x with
  | none => d
  | some t => if t.val = 0 then d else t

/-- One-shot event flag (`threading.Event` / `multiprocessing.Event` /
`asyncio.Event`): created unset, `set()` makes it set. -/
structure Event where
  isSet : Bool
deriving DecidableEq

/-- Event construction (`threading.Event()` etc.): a fresh, unset flag. -/
def Event.new : Event := ⟨false⟩

/-- `event.set()`: the flag becomes (and stays) set. -/
def Event.set (_ : Event) : Event := ⟨true⟩

/-- `event.clear()`: exists in the Python event API, but is never invoked by
any code in this repository; included so that "the core never clears a
signal" is a statement about an operation that could have been used. -/
def Event.clear (_ : Event) : Event := ⟨false⟩

/-- Behaviour of an unbounded `event.wait()` at the moment it is invoked. -/
inductive WaitBehavior where
  | returnsImmediately
  | blocksUntilSet
deriving DecidableEq

/-- `event.wait()` (no timeout): returns immediately when the flag is already
set, otherwise blocks until some other context sets it. -/
def Event.wait (e : Event) : WaitBehavior :=
  if e.isSet then .returnsImmediately else .blocksUntilSet

/-- The operations the core can perform on an event over its lifetime. -/
inductive EventOp where
  | setOp
  | waitOp
  | clearOp
deriving DecidableEq

/-- Effect of one event operation on the flag's state (a completed `wait`
leaves the flag unchanged). -/
def applyEventOp (b : Bool) : EventOp → Bool
  | .setOp => true
  | .waitOp => b
  | .clearOp => false

/-- State of the flag after a sequence of event operations. -/
def runEventOps (b : Bool) (ops : List EventOp) : Bool :=
  ops.foldl applyEventOp b

/-- `HogFrom` enum of `src/lock_hog/parallel/hog_lock.py` (lines 23-25). -/
inductive HogFrom where
  | THREAD
  | PROCESS
deriving DecidableEq

/-- `HogFrom.value` of the `enum.StrEnum` members. -/
def HogFrom.value : HogFrom → String
  | .THREAD => "THREAD"
  | .PROCESS => "PROCESS"

/-- Python `hog_from.value.lower()` as used in the parallel variant's error
message (parallel/hog_lock.py line 90), tabulated per enum member:
`"THREAD".lower() == "thread"` and `"PROCESS".lower() == "process"`. -/
def HogFrom.valueLower : HogFrom → String
  | .THREAD => "thread"
  | .PROCESS => "process"

/-- Shared expression `"1 second" if timeout == 1.0 else f"{timeout} seconds"`
appearing verbatim in all three variants (hog_lock.py line 66,
parallel/hog_lock.py line 88, asynchronous/async_hog_lock.py line 78). -/
def alive_time_description (timeout : PyFloat) : String :=
  if timeout.val = 1 then "1 second" else timeout.repr ++ " seconds"

/-- Exception classes defined by the repository, plus their common Python base
`Exception`.  Each module defines its own class named `HoggerStillAlive`:
`lock_hog/hog_lock.py` line 45, `lock_hog/parallel/hog_lock.py` line 65,
`lock_hog/asynchronous/async_hog_lock.py` line 54; all three are declared as
`class HoggerStillAlive(Exception)` with empty bodies.
`NoRunningEventLoop` is `lock_hog/asynchronous/async_hog_lock.py` line 17. -/
inductive PyExcClass where
  | Exception
  | hogLockHoggerStillAlive
  | parallelHoggerStillAlive
  | asynchronousHoggerStillAlive
  | NoRunningEventLoop
deriving DecidableEq

/-- Direct base class of each class, as written in the source (`Exception`
itself has `BaseException` above it, which no code here touches, so it is
modelled as the root). -/
def directBase : PyExcClass → Option PyExcClass
  | .Exception => none
  | .hogLockHoggerStillAlive => some .Exception
  | .parallelHoggerStillAlive => some .Exception
  | .asynchronousHoggerStillAlive => some .Exception
  | .NoRunningEventLoop => some .Exception

/-- Linearisation of the base-class chain (fuelled; the hierarchy here has
depth at most 1 above each class, and fuel 4 is ample). -/
def mroAux : Nat → PyExcClass → List PyExcClass
  | 0, c => [c]
  | fuel + 1, c =>
    match directBase c with
    | none => [c]
    | some b => c :: mroAux fuel b

/-- Method-resolution order of a class: itself followed by its bases. -/
def mro (c : PyExcClass) : List PyExcClass := mroAux 4 c

/-- Python `except handler:` catches a raised instance of class `raised` iff
`raised` is `handler` or a subclass of it, i.e. `handler` appears in
`raised`'s base-class chain. -/
def catches (handler raised : PyExcClass) : Bool :=
  (mro raised).contains handler

/-- Outcome of the caller-supplied capability's two operations during one run
of the handshake wrapper: `none` means the operation returns normally, `some
e` means it raises `e`.  `acquireResult` is the capability context manager's
acquisition step (`__enter__` / `__aenter__`, i.e. `acquire_lock`);
`releaseResult` is its release step (`__exit__` / `__aexit__`, i.e.
`release_lock`). -/
structure Capability (ε : Type) where
  acquireResult : Option ε
  releaseResult : Option ε

/-- Externally visible effects of one run of the handshake wrapper
`_hog_lock_until_instructed_to_release` on its two events. -/
structure WrapperEffects where
  acquiredEventSet : Bool
  waitedOnReleaseEvent : Bool
deriving DecidableEq

/-- How the wrapper function itself finishes: normally, or by an exception
propagating out of it (out of the execution context). -/
inductive WrapperResult (ε : Type) where
  | completed
  | raised (e : ε)
deriving DecidableEq

/-- Embedding of `_hog_lock_until_instructed_to_release` (hog_lock.py lines
6-14, parallel/hog_lock.py lines 12-20, asynchronous/async_hog_lock.py lines
6-14 — the three bodies are structurally identical):

    with context_manager_that_acquires_lock:
        lock_acquired_event.set()
        release_lock_event.wait()

If the capability's acquisition raises, the `with` body never runs: the
acquired-signal is not set and the exception propagates out unmodified.
Otherwise the body sets the acquired-signal and waits (unbounded) on the
release-signal; on block exit the `with` statement invokes the capability's
release, whose exception (if any) propagates out unmodified.  The two inner
statements (`set`, `wait` with no timeout) cannot raise. -/
def hog_lock_until_instructed_to_release (cap : Capability ε) :
    WrapperEffects × WrapperResult ε :=
  match cap.acquireResult with
  | some e => (⟨false, false⟩, .raised e)
  | none =>
    match cap.releaseResult with
    | some e => (⟨true, true⟩, .raised e)
    | none => (⟨true, true⟩, .completed)

/-- The individual steps of the handshake wrapper, for stating ordering
properties.  `enterAcquire` is the capability's acquisition returning,
`exitRelease` is the capability's release being invoked. -/
inductive WrapperStep where
  | enterAcquire
  | setAcquiredEvent
  | waitReleaseEvent
  | exitRelease
deriving DecidableEq

/-- Python `with cm: body` as a step sequence: acquisition first, then the
body's steps, then release. -/
def withBlock (body : List WrapperStep) : List WrapperStep :=
  WrapperStep.enterAcquire :: body ++ [WrapperStep.exitRelease]

/-- The step sequence of `_hog_lock_until_instructed_to_release`: a `with`
block over the capability whose body sets the acquired-signal and then waits
on the release-signal. -/
def hogWrapperProgram : List WrapperStep :=
  withBlock [WrapperStep.setAcquiredEvent, WrapperStep.waitReleaseEvent]

/-- Steps the wrapper actually completes, given whether the release-signal is
ever set.  `release_lock_event.wait()` has no timeout, so when the signal is
never set the wrapper blocks there forever and completes no later step. -/
def runWrapperSteps (releaseSignalEverSet : Bool) : List WrapperStep → List WrapperStep
  | [] => []
  | step :: rest =>
    match step with
    | .waitReleaseEvent =>
      if releaseSignalEverSet then
        WrapperStep.waitReleaseEvent :: runWrapperSteps releaseSignalEverSet rest
      else []
    | s => s :: runWrapperSteps releaseSignalEverSet rest

/-- What the orchestrator's entry does from the caller's point of view.  The
entry spawns the execution context and then waits, unbounded, on the
acquired-signal (hog_lock.py line 37, parallel/hog_lock.py line 57,
asynchronous/async_hog_lock.py line 46).  It never inspects the context for
an exception, so there is no error constructor here: an exception inside the
context (e.g. from the capability's acquisition) leaves the acquired-signal
unset and the entry simply never returns. -/
inductive EntryResult where
  | returnsToCaller
  | hangsForever
deriving DecidableEq

/-- Orchestrator entry: returns to the caller exactly when the wrapper set the
acquired-signal; otherwise blocks on the unbounded wait forever. -/
def hog_lock_entry (cap : Capability ε) : EntryResult :=
  if (hog_lock_until_instructed_to_release cap).1.acquiredEventSet then
    .returnsToCaller
  else
    .hangsForever

/-- Effects of the orchestrator's scope-exit code (the part of the generator
after `yield`) on the signal pair and on the execution context.
`terminationWaitTimeout` records the timeout value actually passed to the
bounded termination wait (`Thread.join(timeout=...)` /
`Process.join(timeout=...)` / `asyncio.timeout(...)`), `none` when that wait
never ran.  `killCalled` records whether any forcible-stop operation
(`Process.terminate`/`kill`, `Task.cancel`, or any equivalent) was invoked:
no such call appears anywhere in the source. -/
structure ExitEffects where
  releaseEventSet : Bool
  terminationWaitCalled : Bool
  terminationWaitTimeout : Option PyFloat
  killCalled : Bool
  contextStillRunning : Bool
deriving DecidableEq

/-- Result of the orchestrator's scope exit in the thread and parallel
variants: normal completion, the caller's block exception propagating
onwards, or the `HoggerStillAlive` liveness error with its message. -/
inductive ExitOutcome (β : Type) where
  | ok
  | bodyError (e : β)
  | hoggerStillAlive (msg : String)
deriving DecidableEq

namespace ThreadHog

/-- `DEFAULT_THREAD_JOIN_TIMEOUT = 1.0` (hog_lock.py line 42). -/
def DEFAULT_THREAD_JOIN_TIMEOUT : PyFloat := ⟨1, "1.0"⟩

/-- The `HoggerStillAlive` message built at hog_lock.py lines 67-71, with the
`alive_time_description` of line 66 spliced in. -/
def hoggerStillAliveMessage (timeout : PyFloat) : String :=
  "The thread that hogged the lock was still alive after "
    ++ alive_time_description timeout
    ++ ". If this doesn't indicate a bug, consider "
    ++ "passing a longer timeout value to `hog_lock`."

/-- Embedding of the part of `hog_lock` (hog_lock.py lines 49-71) that runs
when the caller's block ends, i.e. the generator code around and after the
`yield` at line 59, under `@contextlib.contextmanager` semantics.

`bodyOutcome` is how the caller's block ended (`none` = normally, `some e` =
it raised `e`); `terminatesWithinTimeout` says whether the hogging thread
terminates within the effective timeout of the release-signal being set (the
abstraction of `join(timeout=...)` followed by `is_alive()`).

The `yield` at line 59 is bare: it is inside no `try`/`finally`.  Under
`contextlib.contextmanager`, when the caller's block raises,
`__exit__` throws the exception into the generator at the `yield`; with no
enclosing `try` the generator ends immediately and the exception propagates
to the caller unchanged — lines 61-71 (setting the release-signal, the
bounded join, the liveness check) never run, and the hogging thread stays
blocked forever on the never-set release-signal.  On a normal block exit the
code sets the release-signal, computes `timeout = timeout or
DEFAULT_THREAD_JOIN_TIMEOUT`, joins with that timeout and raises
`HoggerStillAlive` iff the thread is still alive. -/
def hog_lock_exit (timeout : Option PyFloat) (bodyOutcome : Option β)
    (terminatesWithinTimeout : Bool) : ExitEffects × ExitOutcome β :=
  match bodyOutcome with
  | some e => (⟨false, false, none, false, true⟩, .bodyError e)
  | none =>
    let t := pyFloatOr timeout DEFAULT_THREAD_JOIN_TIMEOUT
    if terminatesWithinTimeout then
      (⟨true, true, some t, false, false⟩, .ok)
    else
      (⟨true, true, some t, false, true⟩, .hoggerStillAlive (hoggerStillAliveMessage t))

/-- Allocation model of `_hog_lock_from_thread` (hog_lock.py lines 17-39):
given the next free allocation id, the function creates the release-signal
(line 21) and then the acquired-signal (line 23), both fresh `Event.new`
instances.  The returned ids identify the two created instances. -/
structure ThreadSpawnOut where
  releaseLockEventId : Nat
  lockAcquiredEventId : Nat
  nextAlloc : Nat
deriving DecidableEq

/-- The two event allocations performed by `_hog_lock_from_thread`. -/
def hog_lock_from_thread_spawn (alloc : Nat) : ThreadSpawnOut :=
  ⟨alloc, alloc + 1, alloc + 2⟩

end ThreadHog

namespace ParallelHog

/-- `DEFAULT_JOIN_TIMEOUT = 1.0` (parallel/hog_lock.py line 62). -/
def DEFAULT_JOIN_TIMEOUT : PyFloat := ⟨1, "1.0"⟩

/-- The `HoggerStillAlive` message built at parallel/hog_lock.py lines 89-93:
`f"The {hog_from.value.lower()} that hogged the lock was still alive after "`
followed by the `alive_time_description` of line 88 and the advisory tail. -/
def hoggerStillAliveMessage (hog_from : HogFrom) (timeout : PyFloat) : String :=
  "The " ++ hog_from.valueLower ++ " that hogged the lock was still alive after "
    ++ alive_time_description timeout
    ++ ". If this doesn't indicate a bug, consider "
    ++ "passing a longer timeout value to `hog_lock`."

/-- Embedding of the part of `hog_lock` (parallel/hog_lock.py lines 69-93)
that runs when the caller's block ends, around the `yield` at line 81, under
`@contextlib.contextmanager` semantics — exactly as in
`ThreadHog.hog_lock_exit` (the `yield` is again bare, inside no
`try`/`finally`), with the executor being a thread or a process according to
`hog_from` and the message naming `hog_from.value.lower()`. -/
def hog_lock_exit (hog_from : HogFrom) (timeout : Option PyFloat)
    (bodyOutcome : Option β) (terminatesWithinTimeout : Bool) :
    ExitEffects × ExitOutcome β :=
  match bodyOutcome with
  | some e => (⟨false, false, none, false, true⟩, .bodyError e)
  | none =>
    let t := pyFloatOr timeout DEFAULT_JOIN_TIMEOUT
    if terminatesWithinTimeout then
      (⟨true, true, some t, false, false⟩, .ok)
    else
      (⟨true, true, some t, false, true⟩,
        .hoggerStillAlive (hoggerStillAliveMessage hog_from t))

/-- Allocation model of `_hog_lock` (parallel/hog_lock.py lines 28-59): for
either `hog_from` branch the function creates the acquired-signal first
(lines 34/38) and then the release-signal (lines 35/39), both fresh event
instances of the matching kind (`threading.Event` / `multiprocessing.Event`).
The returned ids identify the two created instances. -/
structure SpawnOut where
  lockAcquiredEventId : Nat
  releaseLockEventId : Nat
  nextAlloc : Nat
deriving DecidableEq

/-- The two event allocations performed by `_hog_lock`, per branch. -/
def hog_lock_spawn (hog_from : HogFrom) (alloc : Nat) : SpawnOut :=
  match hog_from with
  | .THREAD => ⟨alloc, alloc + 1, alloc + 2⟩
  | .PROCESS => ⟨alloc, alloc + 1, alloc + 2⟩

end ParallelHog

namespace AsyncHog

/-- `DEFAULT_TIMEOUT = 1.0` (asynchronous/async_hog_lock.py line 51). -/
def DEFAULT_TIMEOUT : PyFloat := ⟨1, "1.0"⟩

/-- The `HoggerStillAlive` message built at async_hog_lock.py lines 79-83
("still executing", and the advice names `async_hog_lock`). -/
def hoggerStillAliveMessage (timeout : PyFloat) : String :=
  "The task that hogged the lock was still executing after "
    ++ alive_time_description timeout
    ++ ". If this doesn't indicate a bug, consider "
    ++ "passing a longer timeout value to `async_hog_lock`."

/-- The `NoRunningEventLoop` message built at async_hog_lock.py lines 31-34. -/
def noRunningEventLoopMessage : String :=
  "Please ensure that `async_hog_lock` is called from within an async task, "
    ++ "so that it has access to a running event loop."

/-- How `await hogging_task` inside `async with asyncio.timeout(timeout)`
resolves: the task finishes within the timeout, the task's stored exception
is re-raised by the `await` within the timeout, or the task is still running
when the timeout fires (in which case `asyncio.timeout` cancels the *awaiting*
code — not the task — and converts that into `asyncio.TimeoutError`).

For a re-raised task exception, `timeoutErrorClass` records whether the
exception's class matches `asyncio.TimeoutError`.  This code requires Python
3.11+ (`asyncio.timeout`, `enum.StrEnum`), where `asyncio.TimeoutError` *is*
the builtin `TimeoutError`, so the `except asyncio.TimeoutError` clause at
async_hog_lock.py line 77 matches by class: it catches a `TimeoutError`-class
exception raised by the capability just as it catches the one produced by an
expired `asyncio.timeout`. -/
inductive TaskJoinResult (ε : Type) where
  | finishedWithin
  | raisedWithin (e : ε) (timeoutErrorClass : Bool)
  | stillRunning
deriving DecidableEq

/-- Result of the async orchestrator's scope exit: normal completion, the
caller's block exception propagating onwards, the hogging task's own
exception re-raised into the caller by `await hogging_task`, or the
`HoggerStillAlive` liveness error. -/
inductive AsyncExitOutcome (β ε : Type) where
  | ok
  | bodyError (e : β)
  | capabilityError (e : ε)
  | hoggerStillAlive (msg : String)
deriving DecidableEq

/-- Embedding of the part of `async_hog_lock` (async_hog_lock.py lines 58-83)
that runs when the caller's block ends, around the `yield` at line 68, under
`@contextlib.asynccontextmanager` semantics.

As in the other two variants the `yield` is bare: when the caller's block
raises, the exception is thrown into the generator at the `yield` and lines
70-83 never run — the release-signal is not set, the bounded wait is skipped,
and the exception propagates to the caller unchanged.  On a normal block exit
the code sets the release-signal, computes `timeout = timeout or
DEFAULT_TIMEOUT`, and runs `async with asyncio.timeout(timeout): await
hogging_task` under `try ... except asyncio.TimeoutError`:

* if the task finishes in time, the exit completes normally;
* if the task raised, `await hogging_task` re-raises that exception within
  the timeout (`asyncio.timeout.__aexit__` passes it through — its
  `CancelledError` → `TimeoutError` conversion applies only when its own
  timer expired); the `except asyncio.TimeoutError` clause then matches by
  exception *class*: an exception whose class matches
  `asyncio.TimeoutError` (the builtin `TimeoutError` on Python 3.11+) is
  caught and replaced by `HoggerStillAlive` even though the task has
  already terminated, while any other exception propagates to the caller
  unmodified;
* if the timeout fires with the task still running, the conversion to
  `asyncio.TimeoutError` triggers the same `except` clause and
  `HoggerStillAlive` is raised.

The hogging task itself is never cancelled: in every branch the effects on
the task are only the `await`. -/
def async_hog_lock_exit (timeout : Option PyFloat) (bodyOutcome : Option β)
    (task : TaskJoinResult ε) : ExitEffects × AsyncExitOutcome β ε :=
  match bodyOutcome with
  | some e => (⟨false, false, none, false, true⟩, .bodyError e)
  | none =>
    let t := pyFloatOr timeout DEFAULT_TIMEOUT
    match task with
    | .finishedWithin => (⟨true, true, some t, false, false⟩, .ok)
    | .raisedWithin e timeoutErrorClass =>
      (⟨true, true, some t, false, false⟩,
        if timeoutErrorClass then
          .hoggerStillAlive (hoggerStillAliveMessage t)
        else
          .capabilityError e)
    | .stillRunning =>
      (⟨true, true, some t, false, true⟩,
        .hoggerStillAlive (hoggerStillAliveMessage t))

/-- The primitive steps of `_hog_lock` (async_hog_lock.py lines 21-48), in
source order: two `asyncio.Event()` constructions (lines 25-26), the
`asyncio.get_running_loop()` check (lines 28-34), `event_loop.create_task`
(lines 36-43), and `await lock_acquired_event.wait()` (line 46).
`capabilityOperation` stands for any invocation of the caller-supplied
capability's operations; `_hog_lock` itself never performs one (the
capability is only touched inside the spawned task). -/
inductive SpawnStep where
  | createEvent
  | getRunningLoopCheck
  | createTask
  | awaitAcquiredEvent
  | capabilityOperation
deriving DecidableEq

/-- Whether a running asyncio event loop exists in the calling context. -/
inductive LoopState where
  | running
  | notRunning
deriving DecidableEq

/-- How `_hog_lock` ends: the task is spawned (and the acquired-signal
awaited), or `NoRunningEventLoop` is raised. -/
inductive SpawnOutcome where
  | spawned
  | noRunningEventLoop (msg : String)
deriving DecidableEq

/-- Embedding of `_hog_lock` (async_hog_lock.py lines 21-48) as the sequence
of steps it performs and how it ends.  The two events are created first;
then `asyncio.get_running_loop()` is attempted: when no loop is running it
raises `RuntimeError`, caught and replaced by `NoRunningEventLoop` (lines
28-34), so the function raises before `create_task` is ever reached; when a
loop is running, the task is created and the acquired-signal awaited. -/
def hog_lock_spawn_steps (loop : LoopState) : List SpawnStep × SpawnOutcome :=
  match loop with
  | .running =>
    ([.createEvent, .createEvent, .getRunningLoopCheck, .createTask,
      .awaitAcquiredEvent], .spawned)
  | .notRunning =>
    ([.createEvent, .createEvent, .getRunningLoopCheck],
      .noRunningEventLoop noRunningEventLoopMessage)

end AsyncHog

/-- The two operations a `LockHogger` / `AsyncLockHogger` exposes
(parallel/lock_hogger.py lines 6-10, asynchronous/async_lock_hogger.py lines
6-10). -/
inductive HoggerOp where
  | acquire_lock
  | release_lock
deriving DecidableEq

/-- Python truthiness of an `__exit__` return value (`None` is falsy). -/
def pyTruthy : Option Bool → Bool
  | none => false
  | some b => b

/-- `LockHogger.__enter__` (parallel/lock_hogger.py lines 12-13): calls
`acquire_lock` and returns `None`. -/
def LockHogger_enter : List HoggerOp × Option Bool :=
  ([HoggerOp.acquire_lock], none)

/-- `LockHogger.__exit__` (parallel/lock_hogger.py lines 15-21): whatever the
exception info arguments are, it calls `release_lock` and falls off the end
of the function body, returning `None`. -/
def LockHogger_exit (_excInfo : Option ε) : List HoggerOp × Option Bool :=
  ([HoggerOp.release_lock], none)

/-- `AsyncLockHogger.__aexit__` (asynchronous/async_lock_hogger.py lines
15-21): awaits `release_lock` and returns `None`, for any exception info. -/
def AsyncLockHogger_aexit (_excInfo : Option ε) : List HoggerOp × Option Bool :=
  ([HoggerOp.release_lock], none)

/-- Python `with`-statement exit semantics over a hogger used as a scoped
resource: when the body completes normally, `__exit__(None, None, None)` is
called and the statement completes normally; when the body raises `e`,
`__exit__` is called with the exception info and the exception is suppressed
iff the `__exit__` return value is truthy (`None` is falsy, so returning
`None` propagates).  Returns the hogger operations performed by the exit
together with the statement's overall outcome. -/
def runWithStatement (exitFn : Option ε → List HoggerOp × Option Bool)
    (body : Except ε Unit) : List HoggerOp × Except ε Unit :=
  match body with
  | .ok _ => ((exitFn none).1, .ok ())
  | .error e =>
    let r := exitFn (some e)
    (r.1, if pyTruthy r.2 then .ok () else .error e)

/-- Event operations the core performs on the acquired-signal during one hog
cycle: the wrapper sets it (hog_lock.py line 13, parallel/hog_lock.py line
19, async_hog_lock.py line 13) and the orchestrator's entry waits on it
(hog_lock.py line 37, parallel/hog_lock.py line 57, async_hog_lock.py line
46).  No `clear()` call appears anywhere in the repository. -/
def acquiredEventCoreOps : List EventOp := [.setOp, .waitOp]

/-- Event operations the core performs on the release-signal during one hog
cycle: the wrapper waits on it (hog_lock.py line 14, parallel/hog_lock.py
line 20, async_hog_lock.py line 14) and the orchestrator's exit sets it
(hog_lock.py line 61, parallel/hog_lock.py line 83, async_hog_lock.py line
70).  No `clear()` call appears anywhere in the repository. -/
def releaseEventCoreOps : List EventOp := [.waitOp, .setOp]

/-- Claim C10: the three variants define three distinct exception classes all
named `HoggerStillAlive`, each deriving directly from `Exception` with no
shared domain-specific base, so a handler catching the liveness error of one
variant does not catch the liveness error raised by either of the other two
variants. -/
theorem claim_C10 :
    (PyExcClass.hogLockHoggerStillAlive ≠ PyExcClass.parallelHoggerStillAlive
      ∧ PyExcClass.hogLockHoggerStillAlive ≠ PyExcClass.asynchronousHoggerStillAlive
      ∧ PyExcClass.parallelHoggerStillAlive ≠ PyExcClass.asynchronousHoggerStillAlive)
    ∧ (directBase .hogLockHoggerStillAlive = some .Exception
      ∧ directBase .parallelHoggerStillAlive = some .Exception
      ∧ directBase .asynchronousHoggerStillAlive = some .Exception)
    ∧ (catches .hogLockHoggerStillAlive .parallelHoggerStillAlive = false
      ∧ catches .hogLockHoggerStillAlive .asynchronousHoggerStillAlive = false
      ∧ catches .parallelHoggerStillAlive .hogLockHoggerStillAlive = false
      ∧ catches .parallelHoggerStillAlive .asynchronousHoggerStillAlive = false
      ∧ catches .asynchronousHoggerStillAlive .hogLockHoggerStillAlive = false
      ∧ catches .asynchronousHoggerStillAlive .parallelHoggerStillAlive = false)
    ∧ (catches .hogLockHoggerStillAlive .hogLockHoggerStillAlive = true
      ∧ catches .parallelHoggerStillAlive .parallelHoggerStillAlive = true
      ∧ catches .asynchronousHoggerStillAlive .asynchronousHoggerStillAlive = true)
    ∧ (catches .Exception .hogLockHoggerStillAlive = true
      ∧ catches .Exception .parallelHoggerStillAlive = true
      ∧ catches .Exception .asynchronousHoggerStillAlive = true) := by
  decide

/-- Helper: a signal that is set stays set under any sequence of event
operations that contains no `clear`. -/
theorem runEventOps_stays_set : ∀ (ops : List EventOp), EventOp.clearOp ∉ ops →
    runEventOps true ops = true := by
  intro ops
  induction ops with
  | nil => intro _; rfl
  | cons op rest ih =>
    intro h
    have hop : op ≠ EventOp.clearOp := fun hh => h (hh ▸ List.mem_cons_self op rest)
    have hrest : EventOp.clearOp ∉ rest := fun hh => h (List.mem_cons_of_mem op hh)
    cases op with
    | setOp => simpa [runEventOps, applyEventOp] using ih hrest
    | waitOp => simpa [runEventOps, applyEventOp] using ih hrest
    | clearOp => exact absurd rfl hop

/-- Claim C1 counterexample: when the caller's block raises (concrete
exception value `7` here), the scope-exit code of `hog_lock` — in both the
thread-only and the parallel variant — does not set the release-signal and
does not execute the bounded termination wait, because the bare `yield` sits
in no `try`/`finally` and the thrown exception ends the generator at once. -/
theorem claim_C1_counterexample :
    (@ThreadHog.hog_lock_exit Nat none (some 7) true).1.releaseEventSet = false
    ∧ (@ThreadHog.hog_lock_exit Nat none (some 7) true).1.terminationWaitCalled = false
    ∧ (@ParallelHog.hog_lock_exit Nat HogFrom.THREAD none (some 7) true).1.releaseEventSet = false
    ∧ (@ParallelHog.hog_lock_exit Nat HogFrom.THREAD none (some 7) true).1.terminationWaitCalled
        = false :=
  ⟨rfl, rfl, rfl, rfl⟩

/-- Claim C1 (amended): on a normal exit of the caller's block the
release-signal is set and the bounded termination wait executes, and the
block's exception is never swallowed — it propagates unmodified; but when the
caller's block raises, the post-`yield` code is skipped entirely: the
release-signal is not set and the termination wait does not run, in all three
variants. -/
theorem claim_C1_amended :
    ∀ (hf : HogFrom) (t : Option PyFloat) (term : Bool) (e : Nat)
      (task : AsyncHog.TaskJoinResult Nat),
    ((ThreadHog.hog_lock_exit t (none : Option Nat) term).1.releaseEventSet = true
      ∧ (ThreadHog.hog_lock_exit t (none : Option Nat) term).1.terminationWaitCalled = true)
    ∧ ((ParallelHog.hog_lock_exit hf t (none : Option Nat) term).1.releaseEventSet = true
      ∧ (ParallelHog.hog_lock_exit hf t (none : Option Nat) term).1.terminationWaitCalled = true)
    ∧ ((AsyncHog.async_hog_lock_exit t (none : Option Nat) task).1.releaseEventSet = true
      ∧ (AsyncHog.async_hog_lock_exit t (none : Option Nat) task).1.terminationWaitCalled = true)
    ∧ @ThreadHog.hog_lock_exit Nat t (some e) term
        = (⟨false, false, none, false, true⟩, ExitOutcome.bodyError e)
    ∧ @ParallelHog.hog_lock_exit Nat hf t (some e) term
        = (⟨false, false, none, false, true⟩, ExitOutcome.bodyError e)
    ∧ @AsyncHog.async_hog_lock_exit Nat Nat t (some e) task
        = (⟨false, false, none, false, true⟩, AsyncHog.AsyncExitOutcome.bodyError e) := by
  intro hf t term e task
  cases term <;> cases task <;>
    exact ⟨⟨rfl, rfl⟩, ⟨rfl, rfl⟩, ⟨rfl, rfl⟩, rfl, rfl, rfl⟩

/-- Claim C2: the handshake wrapper performs acquire, then sets the
acquired-signal, then waits (unbounded) on the release-signal, then releases,
in that strict order: when the release-signal is eventually set the executed
steps are exactly that sequence; when it never is, the wrapper stops at the
wait and the release is never invoked; the acquired-signal is set only after
the acquisition step; and when the capability's acquisition raises, the
acquired-signal is never set and the exception propagates as is. -/
theorem claim_C2 :
    runWrapperSteps true hogWrapperProgram
      = [WrapperStep.enterAcquire, WrapperStep.setAcquiredEvent,
         WrapperStep.waitReleaseEvent, WrapperStep.exitRelease]
    ∧ runWrapperSteps false hogWrapperProgram
      = [WrapperStep.enterAcquire, WrapperStep.setAcquiredEvent]
    ∧ WrapperStep.exitRelease ∉ runWrapperSteps false hogWrapperProgram
    ∧ (∀ (b : Bool),
        (runWrapperSteps b hogWrapperProgram).indexOf WrapperStep.enterAcquire
          < (runWrapperSteps b hogWrapperProgram).indexOf WrapperStep.setAcquiredEvent)
    ∧ (∀ (b : Bool), WrapperStep.exitRelease ∈ runWrapperSteps b hogWrapperProgram →
        b = true
        ∧ (runWrapperSteps b hogWrapperProgram).indexOf WrapperStep.waitReleaseEvent
            < (runWrapperSteps b hogWrapperProgram).indexOf WrapperStep.exitRelease)
    ∧ (∀ (e : Nat) (r : Option Nat),
        (hog_lock_until_instructed_to_release ⟨some e, r⟩).1.acquiredEventSet = false
        ∧ (hog_lock_until_instructed_to_release ⟨some e, r⟩).2 = WrapperResult.raised e) := by
  refine ⟨rfl, rfl, by decide, ?_, ?_, ?_⟩
  · intro b; cases b <;> decide
  · intro b; cases b <;> decide
  · intro e r; exact ⟨rfl, rfl⟩

/-- Claim C3 counterexample: the claimed "raises iff the context has not
terminated within t" fails in the async variant.  With the concrete input of
a capability release error of class `asyncio.TimeoutError` (payload `3`)
re-raised by `await hogging_task` well within the timeout, the task has
terminated (`contextStillRunning = false`), yet the `except
asyncio.TimeoutError` clause catches the exception and `HoggerStillAlive` is
raised. -/
theorem claim_C3_counterexample :
    (@AsyncHog.async_hog_lock_exit Nat Nat none none
        (AsyncHog.TaskJoinResult.raisedWithin 3 true)).2
      = AsyncHog.AsyncExitOutcome.hoggerStillAlive
          (AsyncHog.hoggerStillAliveMessage AsyncHog.DEFAULT_TIMEOUT)
    ∧ (@AsyncHog.async_hog_lock_exit Nat Nat none none
        (AsyncHog.TaskJoinResult.raisedWithin 3 true)).1.contextStillRunning = false :=
  ⟨rfl, rfl⟩

/-- Claim C3 (amended): in the thread/process variant the liveness error is
raised on (normal) scope exit exactly when the execution context has not
terminated within the effective timeout after the release-signal was set; in
the async variant it is raised exactly when the task is still running when
the timeout fires *or* the task terminated with an exception whose class
matches `asyncio.TimeoutError` (which the `except asyncio.TimeoutError`
clause catches and translates).  The message names the context kind and
phrases the bound as "1 second" when the effective timeout is 1.0 and as
"<timeout> seconds" otherwise. -/
theorem claim_C3_amended :
    ∀ (hf : HogFrom) (t : Option PyFloat) (term : Bool)
      (task : AsyncHog.TaskJoinResult Nat) (v : ℚ) (s : String),
    ((∃ m, (ParallelHog.hog_lock_exit hf t (none : Option Nat) term).2
        = ExitOutcome.hoggerStillAlive m) ↔ term = false)
    ∧ (term = false →
        (ParallelHog.hog_lock_exit hf t (none : Option Nat) term).2
          = ExitOutcome.hoggerStillAlive
              (ParallelHog.hoggerStillAliveMessage hf
                (pyFloatOr t ParallelHog.DEFAULT_JOIN_TIMEOUT)))
    ∧ ((∃ m, (AsyncHog.async_hog_lock_exit t (none : Option Nat) task).2
        = AsyncHog.AsyncExitOutcome.hoggerStillAlive m)
        ↔ (task = AsyncHog.TaskJoinResult.stillRunning
            ∨ ∃ e2, task = AsyncHog.TaskJoinResult.raisedWithin e2 true))
    ∧ (task = AsyncHog.TaskJoinResult.stillRunning →
        (AsyncHog.async_hog_lock_exit t (none : Option Nat) task).2
          = AsyncHog.AsyncExitOutcome.hoggerStillAlive
              (AsyncHog.hoggerStillAliveMessage (pyFloatOr t AsyncHog.DEFAULT_TIMEOUT)))
    ∧ (∀ (e2 : Nat), task = AsyncHog.TaskJoinResult.raisedWithin e2 true →
        (AsyncHog.async_hog_lock_exit t (none : Option Nat) task).2
          = AsyncHog.AsyncExitOutcome.hoggerStillAlive
              (AsyncHog.hoggerStillAliveMessage (pyFloatOr t AsyncHog.DEFAULT_TIMEOUT)))
    ∧ alive_time_description ⟨1, "1.0"⟩ = "1 second"
    ∧ (v ≠ 1 → alive_time_description ⟨v, s⟩ = s ++ " seconds")
    ∧ ParallelHog.hoggerStillAliveMessage HogFrom.THREAD ⟨1, "1.0"⟩
        = "The thread that hogged the lock was still alive after 1 second. If this "
            ++ "doesn't indicate a bug, consider passing a longer timeout value to `hog_lock`."
    ∧ ParallelHog.hoggerStillAliveMessage HogFrom.PROCESS ⟨1, "1.0"⟩
        = "The process that hogged the lock was still alive after 1 second. If this "
            ++ "doesn't indicate a bug, consider passing a longer timeout value to `hog_lock`."
    ∧ ParallelHog.hoggerStillAliveMessage HogFrom.THREAD ⟨1 / 100, "0.01"⟩
        = "The thread that hogged the lock was still alive after 0.01 seconds. If this "
            ++ "doesn't indicate a bug, consider passing a longer timeout value to `hog_lock`."
    ∧ AsyncHog.hoggerStillAliveMessage ⟨1, "1.0"⟩
        = "The task that hogged the lock was still executing after 1 second. If this "
            ++ "doesn't indicate a bug, consider passing a longer timeout value to `async_hog_lock`." := by
  intro hf t term task v s
  refine ⟨?_, ?_, ?_, ?_, ?_, by norm_num [alive_time_description], ?_, by decide, by decide,
    ?_, by decide⟩
  · cases term <;> simp [ParallelHog.hog_lock_exit]
  · intro h; subst h; rfl
  · rcases task with _ | ⟨e2, b⟩ | _ <;> try cases b
    all_goals simp [AsyncHog.async_hog_lock_exit]
  · intro h; subst h; rfl
  · intro e2 h; subst h; rfl
  · intro h; simp only [alive_time_description]; rw [if_neg h]
  · simp only [ParallelHog.hoggerStillAliveMessage, HogFrom.valueLower,
      alive_time_description]
    rw [if_neg (by norm_num)]
    decide

/-- Claim C4 counterexample: "the execution context is left running" fails in
the async variant.  At the concrete input of a `TimeoutError`-class
capability release error (payload `3`) re-raised within the timeout, the
`except asyncio.TimeoutError` liveness branch is taken (`HoggerStillAlive`
is raised) although the task has already terminated — the context is not
"left running" because it is not running at all. -/
theorem claim_C4_counterexample :
    (∃ m, (@AsyncHog.async_hog_lock_exit Nat Nat none none
        (AsyncHog.TaskJoinResult.raisedWithin 3 true)).2
      = AsyncHog.AsyncExitOutcome.hoggerStillAlive m)
    ∧ (@AsyncHog.async_hog_lock_exit Nat Nat none none
        (AsyncHog.TaskJoinResult.raisedWithin 3 true)).1.killCalled = false
    ∧ (@AsyncHog.async_hog_lock_exit Nat Nat none none
        (AsyncHog.TaskJoinResult.raisedWithin 3 true)).1.contextStillRunning = false :=
  ⟨⟨AsyncHog.hoggerStillAliveMessage AsyncHog.DEFAULT_TIMEOUT, rfl⟩, rfl, rfl⟩

/-- Claim C4 (amended): when the liveness-violation branch is taken, the
orchestrator's only effect is to raise the error — it never kills,
terminates or cancels the execution context in any variant.  In the thread
and process variants the branch implies the context is still running and it
is left running.  In the async variant the branch is taken either with the
task still running — and then it is left running, not cancelled — or with
the task already terminated by a `TimeoutError`-class capability exception;
in every branch of every variant no forcible-stop operation is invoked. -/
theorem claim_C4_amended :
    ∀ (hf : HogFrom) (t : Option PyFloat),
    ((ThreadHog.hog_lock_exit t (none : Option Nat) false).1.killCalled = false
      ∧ (ThreadHog.hog_lock_exit t (none : Option Nat) false).1.contextStillRunning = true
      ∧ ∃ m, (ThreadHog.hog_lock_exit t (none : Option Nat) false).2
          = ExitOutcome.hoggerStillAlive m)
    ∧ ((ParallelHog.hog_lock_exit hf t (none : Option Nat) false).1.killCalled = false
      ∧ (ParallelHog.hog_lock_exit hf t (none : Option Nat) false).1.contextStillRunning = true
      ∧ ∃ m, (ParallelHog.hog_lock_exit hf t (none : Option Nat) false).2
          = ExitOutcome.hoggerStillAlive m)
    ∧ ((AsyncHog.async_hog_lock_exit t (none : Option Nat)
          (@AsyncHog.TaskJoinResult.stillRunning Nat)).1.killCalled = false
      ∧ (AsyncHog.async_hog_lock_exit t (none : Option Nat)
          (@AsyncHog.TaskJoinResult.stillRunning Nat)).1.contextStillRunning = true
      ∧ ∃ m, (AsyncHog.async_hog_lock_exit t (none : Option Nat)
          (@AsyncHog.TaskJoinResult.stillRunning Nat)).2
          = AsyncHog.AsyncExitOutcome.hoggerStillAlive m)
    ∧ (∀ (e2 : Nat),
        (AsyncHog.async_hog_lock_exit t (none : Option Nat)
          (AsyncHog.TaskJoinResult.raisedWithin e2 true)).1.killCalled = false
        ∧ (AsyncHog.async_hog_lock_exit t (none : Option Nat)
            (AsyncHog.TaskJoinResult.raisedWithin e2 true)).1.contextStillRunning = false
        ∧ ∃ m, (AsyncHog.async_hog_lock_exit t (none : Option Nat)
            (AsyncHog.TaskJoinResult.raisedWithin e2 true)).2
            = AsyncHog.AsyncExitOutcome.hoggerStillAlive m)
    ∧ (∀ (task : AsyncHog.TaskJoinResult Nat),
        (AsyncHog.async_hog_lock_exit t (none : Option Nat) task).1.killCalled = false) := by
  intro hf t
  refine ⟨⟨rfl, rfl, _, rfl⟩, ⟨rfl, rfl, _, rfl⟩, ⟨rfl, rfl, _, rfl⟩,
    fun e2 => ⟨rfl, rfl, _, rfl⟩, fun task => ?_⟩
  cases task <;> rfl

/-- Claim C5 counterexample: in the async variant a `release()` exception
(concrete payload `3` here, of a class not matching `asyncio.TimeoutError`)
stored on the hogging task is re-raised into the orchestrator's caller by
`await hogging_task` at scope exit — it is *not* invisible to the caller,
refuting the claim for "all three variants". -/
theorem claim_C5_counterexample :
    (@AsyncHog.async_hog_lock_exit Nat Nat none none
        (AsyncHog.TaskJoinResult.raisedWithin 3 false)).2
      = AsyncHog.AsyncExitOutcome.capabilityError 3 := rfl

/-- Claim C5 (amended): exceptions from the capability's acquire/release
propagate out of the handshake wrapper unmodified — never caught, wrapped or
translated by the core wrapper.  In the thread and process variants they are
invisible to the orchestrator's caller (the entry wait hangs on an acquire
failure and surfaces no error; the exit of a context that died from a release
failure completes with no error).  In the async variant an acquire failure is
likewise invisible (the entry hangs), and a release failure is re-raised,
unmodified, into the orchestrator's caller at scope exit — unless its class
matches `asyncio.TimeoutError`, in which case the `except
asyncio.TimeoutError` clause catches it and raises `HoggerStillAlive`
instead. -/
theorem claim_C5_amended :
    ∀ (e : Nat) (r : Option Nat) (t : Option PyFloat) (hf : HogFrom),
    (hog_lock_until_instructed_to_release ⟨some e, r⟩).2 = WrapperResult.raised e
    ∧ (hog_lock_until_instructed_to_release ⟨none, some e⟩).2 = WrapperResult.raised e
    ∧ (hog_lock_until_instructed_to_release (⟨none, none⟩ : Capability Nat)).2
        = WrapperResult.completed
    ∧ hog_lock_entry ⟨some e, r⟩ = EntryResult.hangsForever
    ∧ (ThreadHog.hog_lock_exit t (none : Option Nat) true).2 = ExitOutcome.ok
    ∧ (ParallelHog.hog_lock_exit hf t (none : Option Nat) true).2 = ExitOutcome.ok
    ∧ (AsyncHog.async_hog_lock_exit t (none : Option Nat)
        (AsyncHog.TaskJoinResult.raisedWithin e false)).2
        = AsyncHog.AsyncExitOutcome.capabilityError e
    ∧ (AsyncHog.async_hog_lock_exit t (none : Option Nat)
        (AsyncHog.TaskJoinResult.raisedWithin e true)).2
        = AsyncHog.AsyncExitOutcome.hoggerStillAlive
            (AsyncHog.hoggerStillAliveMessage (pyFloatOr t AsyncHog.DEFAULT_TIMEOUT)) := by
  intro e r t hf
  exact ⟨rfl, rfl, rfl, rfl, rfl, rfl, rfl, rfl⟩

/-- Claim C6: invoked with no running event loop, the async spawner performs
only its two event constructions and the running-loop check, then raises
`NoRunningEventLoop` with its documented message: no task is created, the
acquired-signal is never awaited, and no capability operation occurs. -/
theorem claim_C6 :
    AsyncHog.hog_lock_spawn_steps AsyncHog.LoopState.notRunning
      = ([AsyncHog.SpawnStep.createEvent, AsyncHog.SpawnStep.createEvent,
          AsyncHog.SpawnStep.getRunningLoopCheck],
         AsyncHog.SpawnOutcome.noRunningEventLoop AsyncHog.noRunningEventLoopMessage)
    ∧ AsyncHog.SpawnStep.createTask
        ∉ (AsyncHog.hog_lock_spawn_steps AsyncHog.LoopState.notRunning).1
    ∧ AsyncHog.SpawnStep.capabilityOperation
        ∉ (AsyncHog.hog_lock_spawn_steps AsyncHog.LoopState.notRunning).1
    ∧ AsyncHog.SpawnStep.awaitAcquiredEvent
        ∉ (AsyncHog.hog_lock_spawn_steps AsyncHog.LoopState.notRunning).1 :=
  ⟨rfl, by decide, by decide, by decide⟩

/-- Claim C7: the effective termination-wait timeout is the caller's value
when truthy, and 1.0 when the argument is omitted (`None`) or falsy (value
0); each variant's bounded wait receives exactly this effective value. -/
theorem claim_C7 :
    ∀ (v : ℚ) (s : String) (t : Option PyFloat) (term : Bool)
      (task : AsyncHog.TaskJoinResult Nat) (hf : HogFrom),
    (ThreadHog.DEFAULT_THREAD_JOIN_TIMEOUT.val = 1
      ∧ ParallelHog.DEFAULT_JOIN_TIMEOUT.val = 1
      ∧ AsyncHog.DEFAULT_TIMEOUT.val = 1)
    ∧ pyFloatOr none ThreadHog.DEFAULT_THREAD_JOIN_TIMEOUT
        = ThreadHog.DEFAULT_THREAD_JOIN_TIMEOUT
    ∧ pyFloatOr (some ⟨0, s⟩) ThreadHog.DEFAULT_THREAD_JOIN_TIMEOUT
        = ThreadHog.DEFAULT_THREAD_JOIN_TIMEOUT
    ∧ pyFloatOr (some ⟨0, s⟩) AsyncHog.DEFAULT_TIMEOUT = AsyncHog.DEFAULT_TIMEOUT
    ∧ (v ≠ 0 → pyFloatOr (some ⟨v, s⟩) ThreadHog.DEFAULT_THREAD_JOIN_TIMEOUT = ⟨v, s⟩)
    ∧ (v ≠ 0 → pyFloatOr (some ⟨v, s⟩) ParallelHog.DEFAULT_JOIN_TIMEOUT = ⟨v, s⟩)
    ∧ (v ≠ 0 → pyFloatOr (some ⟨v, s⟩) AsyncHog.DEFAULT_TIMEOUT = ⟨v, s⟩)
    ∧ (ThreadHog.hog_lock_exit t (none : Option Nat) term).1.terminationWaitTimeout
        = some (pyFloatOr t ThreadHog.DEFAULT_THREAD_JOIN_TIMEOUT)
    ∧ (ParallelHog.hog_lock_exit hf t (none : Option Nat) term).1.terminationWaitTimeout
        = some (pyFloatOr t ParallelHog.DEFAULT_JOIN_TIMEOUT)
    ∧ (AsyncHog.async_hog_lock_exit t (none : Option Nat) task).1.terminationWaitTimeout
        = some (pyFloatOr t AsyncHog.DEFAULT_TIMEOUT) := by
  intro v s t term task hf
  refine ⟨⟨rfl, rfl, rfl⟩, rfl, by simp [pyFloatOr], by simp [pyFloatOr],
    ?_, ?_, ?_, ?_, ?_, ?_⟩
  · intro h; simp only [pyFloatOr]; rw [if_neg h]
  · intro h; simp only [pyFloatOr]; rw [if_neg h]
  · intro h; simp only [pyFloatOr]; rw [if_neg h]
  · cases term <;> rfl
  · cases term <;> rfl
  · cases task <;> rfl

/-- Claim C8: each hog cycle creates two fresh signal instances (distinct from
each other, new relative to everything allocated before, and never shared
between successive cycles); a fresh signal starts unset; the core only ever
sets and waits on the signals — no `clear` appears — so a signal once set
stays set, and a (second) wait on an already-set signal returns immediately
instead of re-blocking. -/
theorem claim_C8 :
    ∀ (alloc : Nat) (hf : HogFrom) (e : Event),
    ((ParallelHog.hog_lock_spawn hf alloc).lockAcquiredEventId
        ≠ (ParallelHog.hog_lock_spawn hf alloc).releaseLockEventId
      ∧ alloc ≤ (ParallelHog.hog_lock_spawn hf alloc).lockAcquiredEventId
      ∧ alloc ≤ (ParallelHog.hog_lock_spawn hf alloc).releaseLockEventId
      ∧ (ParallelHog.hog_lock_spawn hf alloc).lockAcquiredEventId
          < (ParallelHog.hog_lock_spawn hf alloc).nextAlloc
      ∧ (ParallelHog.hog_lock_spawn hf alloc).releaseLockEventId
          < (ParallelHog.hog_lock_spawn hf alloc).nextAlloc)
    ∧ ((ThreadHog.hog_lock_from_thread_spawn alloc).releaseLockEventId
        ≠ (ThreadHog.hog_lock_from_thread_spawn alloc).lockAcquiredEventId
      ∧ alloc ≤ (ThreadHog.hog_lock_from_thread_spawn alloc).releaseLockEventId
      ∧ alloc ≤ (ThreadHog.hog_lock_from_thread_spawn alloc).lockAcquiredEventId)
    ∧ ((ParallelHog.hog_lock_spawn hf alloc).lockAcquiredEventId
        ≠ (ParallelHog.hog_lock_spawn hf
            (ParallelHog.hog_lock_spawn hf alloc).nextAlloc).lockAcquiredEventId
      ∧ (ParallelHog.hog_lock_spawn hf alloc).lockAcquiredEventId
        ≠ (ParallelHog.hog_lock_spawn hf
            (ParallelHog.hog_lock_spawn hf alloc).nextAlloc).releaseLockEventId
      ∧ (ParallelHog.hog_lock_spawn hf alloc).releaseLockEventId
        ≠ (ParallelHog.hog_lock_spawn hf
            (ParallelHog.hog_lock_spawn hf alloc).nextAlloc).lockAcquiredEventId
      ∧ (ParallelHog.hog_lock_spawn hf alloc).releaseLockEventId
        ≠ (ParallelHog.hog_lock_spawn hf
            (ParallelHog.hog_lock_spawn hf alloc).nextAlloc).releaseLockEventId)
    ∧ Event.new.isSet = false
    ∧ EventOp.clearOp ∉ acquiredEventCoreOps
    ∧ EventOp.clearOp ∉ releaseEventCoreOps
    ∧ (∀ (ops : List EventOp), EventOp.clearOp ∉ ops → runEventOps true ops = true)
    ∧ (e.set).wait = WaitBehavior.returnsImmediately
    ∧ Event.wait ⟨true⟩ = WaitBehavior.returnsImmediately := by
  intro alloc hf e
  cases hf <;>
  · simp only [ParallelHog.hog_lock_spawn, ThreadHog.hog_lock_from_thread_spawn]
    exact ⟨⟨by omega, by omega, by omega, by omega, by omega⟩,
      ⟨by omega, by omega, by omega⟩,
      ⟨by omega, by omega, by omega, by omega⟩,
      rfl, by decide, by decide, runEventOps_stays_set, rfl, rfl⟩

/-- Claim C9: a `LockHogger` / `AsyncLockHogger` used as a scoped resource
calls `release_lock` on every exit path, including when the body raised, and
its `__exit__` / `__aexit__` returns `None`, so an exception raised inside
the scope is never suppressed by the hogger. -/
theorem claim_C9 :
    ∀ (e : Nat),
    (LockHogger_exit (some e)).1 = [HoggerOp.release_lock]
    ∧ (LockHogger_exit (none : Option Nat)).1 = [HoggerOp.release_lock]
    ∧ (LockHogger_exit (some e)).2 = none
    ∧ (LockHogger_exit (none : Option Nat)).2 = none
    ∧ (AsyncLockHogger_aexit (some e)).1 = [HoggerOp.release_lock]
    ∧ (AsyncLockHogger_aexit (some e)).2 = none
    ∧ runWithStatement LockHogger_exit (Except.error e)
        = ([HoggerOp.release_lock], Except.error e)
    ∧ @runWithStatement Nat LockHogger_exit (Except.ok ())
        = ([HoggerOp.release_lock], Except.ok ())
    ∧ runWithStatement AsyncLockHogger_aexit (Except.error e)
        = ([HoggerOp.release_lock], Except.error e)
    ∧ @runWithStatement Nat AsyncLockHogger_aexit (Except.ok ())
        = ([HoggerOp.release_lock], Except.ok ()) := by
  intro e
  exact ⟨rfl, rfl, rfl, rfl, rfl, rfl, rfl, rfl, rfl, rfl⟩
